import Mathlib

/- Verification of the workflow builder / run-engine specification against the
   repository sources.

   Part 1 models the node-settings UI (apps/web/src/components/NodeSettings.tsx):
   the per-node settings object, the `updateSetting` handlers attached to the
   Max Tries / Wait Between Tries number inputs (which store `parseInt` of the
   raw input string), and the resolution of the On Error select value. -/

namespace WorkflowSpec

/-- The three error-handling policies of the `onError` select
    (NodeSettings.tsx lines 74-76). -/
inductive OnError
  | stopWorkflow
  | continueRegularOutput
  | continueErrorOutput
  deriving DecidableEq, Repr

/-- A JavaScript number restricted to what `parseInt` can return: an integer
    or NaN. `none` stands for NaN. -/
abbrev JSNumber := Option Int

/-- The per-node settings object of NodeSettingsProps (NodeSettings.tsx
    lines 5-23). Every field is optional, as in the TypeScript interface.
    Numeric fields hold `JSNumber` because the change handlers store raw
    `parseInt` results, which can be NaN. -/
structure NodeSettingsUI where
  continueOnFail : Option Bool := none
  onError : Option OnError := none
  retryOnFail : Option Bool := none
  maxTries : Option JSNumber := none
  waitBetweenTries : Option JSNumber := none
  alwaysOutputData : Option Bool := none
  executeOnce : Option Bool := none
  timeout : Option JSNumber := none
  disabled : Option Bool := none
  notes : Option String := none
  notesInFlow : Option Bool := none
  color : Option Int := none
  deriving DecidableEq, Repr

/-- Numeric value of a list of decimal digit characters. -/
def digitsToNat (ds : List Char) : Nat :=
  ds.foldl (fun a c => a * 10 + (c.toNat - 48)) 0

/-- Parse the maximal leading run of decimal digits; `none` when there is no
    leading digit (JavaScript `parseInt` yields NaN there). -/
def parseDigits (cs : List Char) : Option Nat :=
  let ds := cs.takeWhile Char.isDigit
  if ds.isEmpty then none else some (digitsToNat ds)

/-- Model of JavaScript `parseInt(s)` on base-10 input: skip leading
    whitespace, accept an optional sign, read the maximal digit prefix, and
    return NaN (`none`) when no digit follows. -/
def jsParseInt (s : String) : JSNumber :=
  match s.data.dropWhile Char.isWhitespace with
  | '-' :: rest => (parseDigits rest).map (fun n => -(n : Int))
  | '+' :: rest => (parseDigits rest).map (fun n => (n : Int))
  | cs => (parseDigits cs).map (fun n => (n : Int))

/-- `updateSetting('maxTries', v)` (NodeSettings.tsx line 104): spread the
    settings object and overwrite the one key. -/
def updateMaxTries (st : NodeSettingsUI) (v : JSNumber) : NodeSettingsUI :=
  { st with maxTries := some v }

/-- `updateSetting('waitBetweenTries', v)` (NodeSettings.tsx line 118). -/
def updateWaitBetweenTries (st : NodeSettingsUI) (v : JSNumber) : NodeSettingsUI :=
  { st with waitBetweenTries := some v }

/-- The Max Tries input's onChange handler: it stores
    `parseInt(e.target.value)` with no clamping (NodeSettings.tsx line 104). -/
def maxTriesOnChange (st : NodeSettingsUI) (typed : String) : NodeSettingsUI :=
  updateMaxTries st (jsParseInt typed)

/-- The Wait Between Tries input's onChange handler (NodeSettings.tsx
    line 118). -/
def waitBetweenTriesOnChange (st : NodeSettingsUI) (typed : String) : NodeSettingsUI :=
  updateWaitBetweenTries st (jsParseInt typed)

/-- A `JSNumber` is an integer within the closed interval given. NaN is in no
    interval. -/
def jsInRange (v : JSNumber) (lo hi : Int) : Prop :=
  ∃ n : Int, v = some n ∧ lo ≤ n ∧ n ≤ hi

instance (v : JSNumber) (lo hi : Int) : Decidable (jsInRange v lo hi) := by
  unfold jsInRange
  match v with
  | none => exact .isFalse (by simp)
  | some n => exact decidable_of_iff (lo ≤ n ∧ n ≤ hi) (by simp)

/-- The selected On Error policy: `settings.onError || 'stopWorkflow'`
    (NodeSettings.tsx line 70). -/
def selectedOnError (st : NodeSettingsUI) : OnError :=
  st.onError.getD OnError.stopWorkflow


/- ---------------------------------------------------------------------
   The workflow store (apps/web/src/store/workflowStore.ts, second
   revision, lines 44-106) and the components that consume it.
   --------------------------------------------------------------------- -/

/-- A React Flow node as the store holds it: id, type, data payload (label,
    node type, parameters are opaque to the store) and canvas position. -/
structure RFNode where
  id : String
  ty : String
  label : String
  posX : Int
  posY : Int
  deriving DecidableEq, Repr

/-- A React Flow edge: id, source and target node ids, optional source
    handle (the output port, e.g. the condition node's true / false). -/
structure REdge where
  id : String
  source : String
  target : String
  sourceHandle : Option String := none
  deriving DecidableEq, Repr

/-- The state held by `useWorkflowStore` (workflowStore.ts lines 47-71):
    workflow id and name, nodes, edges, and the currently selected node. -/
structure WorkflowState where
  workflowId : String
  workflowName : String
  nodes : List RFNode
  edges : List REdge
  selectedNode : Option RFNode
  deriving DecidableEq, Repr

/-- `updateNode` (workflowStore.ts lines 90-95): map over the nodes,
    substituting the replacement for every node whose id matches, and move
    the selection to the replacement exactly when the selected node's id
    matches (`get().selectedNode?.id === nodeId`; a `null` selection never
    matches a string id). Zustand's `set` merges, so all other fields stay. -/
def updateNode (nodeId : String) (updatedNode : RFNode) (st : WorkflowState) : WorkflowState :=
  { st with
    nodes := st.nodes.map (fun n => if n.id = nodeId then updatedNode else n),
    selectedNode :=
      match st.selectedNode with
      | some sel => if sel.id = nodeId then some updatedNode else some sel
      | none => none }

/-- The argument of `loadWorkflow` (workflowStore.ts line 63). -/
structure WorkflowPayload where
  id : String
  name : String
  nodes : List RFNode
  edges : List REdge
  deriving DecidableEq, Repr

/-- `loadWorkflow` (workflowStore.ts lines 99-105): overwrite workflowId,
    workflowName, nodes and edges from the payload. `set` merges partial
    state, so `selectedNode` is not touched. -/
def loadWorkflow (w : WorkflowPayload) (st : WorkflowState) : WorkflowState :=
  { st with
    workflowId := w.id,
    workflowName := w.name,
    nodes := w.nodes,
    edges := w.edges }

/-- `addNode` (workflowStore.ts line 89): append the node. -/
def addNode (n : RFNode) (st : WorkflowState) : WorkflowState :=
  { st with nodes := st.nodes ++ [n] }

/-- `setSelectedNode` (workflowStore.ts line 96). -/
def setSelectedNode (n : Option RFNode) (st : WorkflowState) : WorkflowState :=
  { st with selectedNode := n }

/-- The keys of the object literal that `create` builds the store from
    (workflowStore.ts lines 66-106): the complete set of state fields and
    operations the store defines. -/
def workflowStoreKeys : List String :=
  [r"workflowId", r"workflowName", r"nodes", r"edges", r"selectedNode",
   r"onNodesChange", r"onEdgesChange", r"onConnect",
   r"setNodes", r"setEdges", r"addNode", r"updateNode",
   r"setSelectedNode", r"setWorkflowName", r"setWorkflowId", r"loadWorkflow"]

/-- The store members NodeConfig destructures from `useWorkflowStore()`
    (NodeConfig.tsx line 262); `handleDelete` (lines 306-331) calls the
    `deleteNode` binding after the confirmation dialog. -/
def nodeConfigStoreBindings : List String :=
  [r"selectedNode", r"updateNode", r"deleteNode", r"setSelectedNode"]

/-- The store members the editor page destructures (pages/index.tsx
    line 16); its Delete / Backspace handler also calls `deleteNode`
    (line 167). -/
def indexPageStoreBindings : List String :=
  [r"workflowId", r"workflowName", r"nodes", r"edges", r"setWorkflowName",
   r"loadWorkflow", r"selectedNode", r"deleteNode"]

/- ---------------------------------------------------------------------
   The condition node's port declarations (ConditionNode.tsx) and the run
   engine. The execution engine itself (Celery worker / Run Coordinator) is
   not part of the sources under src/: only the UI, the settings interface
   and the docs describe it, so its behaviour is modelled from the spec.
   --------------------------------------------------------------------- -/

/-- React Flow handle kinds. -/
inductive HandleType
  | target
  | source
  deriving DecidableEq, Repr

/-- A React Flow `Handle` element: its type and optional port id. -/
structure RFHandle where
  ty : HandleType
  portId : Option String := none
  deriving DecidableEq, Repr

/-- The handles ConditionNode renders (ConditionNode.tsx lines 16, 39, 40):
    one target handle and two source handles with ids `true` and `false`. -/
def conditionNodeHandles : List RFHandle :=
  [{ ty := HandleType.target },
   { ty := HandleType.source, portId := some (r"true") },
   { ty := HandleType.source, portId := some (r"false") }]

/-- Modelled from the spec: the Run Coordinator is not under src/. Spec §4.1
    says a conditional node emits on exactly one of its declared output
    ports (`true`/`false`); the engine evaluates the node's condition to a
    boolean and activates the matching port. -/
def condEmit (condition : Bool) : String :=
  if condition then r"true" else r"false"

/-- The declared output port ids of the condition node. -/
def conditionOutputPorts : List String :=
  (conditionNodeHandles.filter (fun h => h.ty = HandleType.source)).filterMap RFHandle.portId

/-- The output ports a condition evaluation activates. -/
def activatedPorts (condition : Bool) : List String :=
  conditionOutputPorts.filter (fun p => p = condEmit condition)

/-- The run states (spec §4.3; architecture.md Execution model). -/
inductive RunStatus
  | queued
  | running
  | succeeded
  | failed
  | waiting
  | cancelled
  deriving DecidableEq, Repr

/-- The actions that drive a run between states. -/
inductive RunAct
  | start
  | finishOk
  | finishFail
  | suspend
  | resume
  | reject
  | approvalTimeout
  | cancel
  deriving DecidableEq, Repr

/-- Modelled from the spec: the Run Coordinator's state machine is not under
    src/. Spec §4.3: QUEUED to RUNNING; RUNNING to SUCCEEDED, FAILED,
    WAITING or CANCELLED; WAITING to RUNNING only via explicit resume,
    WAITING to FAILED on rejection or approval timeout; CANCELLED reachable
    from QUEUED, RUNNING or WAITING; terminal states absorb. -/
def runStep : RunStatus → RunAct → Option RunStatus
  | RunStatus.queued, RunAct.start => some RunStatus.running
  | RunStatus.queued, RunAct.cancel => some RunStatus.cancelled
  | RunStatus.running, RunAct.finishOk => some RunStatus.succeeded
  | RunStatus.running, RunAct.finishFail => some RunStatus.failed
  | RunStatus.running, RunAct.suspend => some RunStatus.waiting
  | RunStatus.running, RunAct.cancel => some RunStatus.cancelled
  | RunStatus.waiting, RunAct.resume => some RunStatus.running
  | RunStatus.waiting, RunAct.reject => some RunStatus.failed
  | RunStatus.waiting, RunAct.approvalTimeout => some RunStatus.failed
  | RunStatus.waiting, RunAct.cancel => some RunStatus.cancelled
  | _, _ => none

/-- The outcome of one step-executor attempt (spec §4.2): an Envelope or an
    ExecutionError; timeouts count as errors. -/
inductive StepStatus
  | success
  | error
  deriving DecidableEq, Repr

/-- Per-node settings as the engine consumes them, with the documented
    defaults (docs/node-parameters-spec.md §1). -/
structure StepSettings where
  continueOnFail : Bool := false
  onError : Option OnError := none
  retryOnFail : Bool := false
  maxTries : Nat := 3
  waitBetweenTries : Nat := 1000
  alwaysOutputData : Bool := false
  deriving DecidableEq, Repr

/-- Modelled from the spec: the engine's effective error policy is not under
    src/. Spec §4.2: `continueOnFail` is a legacy alias equivalent to
    `onError = continueRegularOutput`; otherwise `onError` applies, with
    stopWorkflow as default. -/
def effOnError (s : StepSettings) : OnError :=
  if s.continueOnFail then OnError.continueRegularOutput
  else s.onError.getD OnError.stopWorkflow

/-- Modelled from the spec: the retry loop of §4.2 is not under src/. `out`
    gives each attempt's outcome (attempt indices start at 1), `i` is the
    current attempt index and `remaining = maxTries - i` the attempts still
    allowed after this one. Returns the StepExecution rows (attempt index,
    status) in order together with the node's final status: on an error,
    when `retryOnFail` holds and the attempt index is below maxTries a new
    attempt is scheduled, otherwise the node fails. -/
def runRetries (retry : Bool) (out : Nat → StepStatus) (i remaining : Nat) :
    List (Nat × StepStatus) × StepStatus :=
  match out i with
  | StepStatus.success => ([(i, StepStatus.success)], StepStatus.success)
  | StepStatus.error =>
    match remaining with
    | r + 1 =>
      if retry then
        let rest := runRetries retry out (i + 1) r
        ((i, StepStatus.error) :: rest.1, rest.2)
      else ([(i, StepStatus.error)], StepStatus.error)
    | 0 => ([(i, StepStatus.error)], StepStatus.error)

/-- Execute one node under its retry settings: attempts start at index 1
    with a budget of `maxTries` total attempts. -/
def execNode (s : StepSettings) (out : Nat → StepStatus) :
    List (Nat × StepStatus) × StepStatus :=
  runRetries s.retryOnFail out 1 (s.maxTries - 1)

/-- How the run proceeds after a node's retries are exhausted or it
    succeeded. `proceedRegular` records whether an empty envelope is emitted
    (spec §4.2: `alwaysOutputData` decides). -/
inductive Continuation
  | succeeded
  | runFailed
  | proceedRegular (emitsEnvelope : Bool)
  | proceedErrorPort
  deriving DecidableEq, Repr

/-- Modelled from the spec: the error-handling policy of §4.2 is not under
    src/. stopWorkflow fails the run; continueRegularOutput proceeds on the
    normal port honouring alwaysOutputData; continueErrorOutput proceeds on
    the error port when one is wired and degrades to stopWorkflow
    otherwise. -/
def applyOnError (p : OnError) (alwaysOut : Bool) (errorPortWired : Bool) : Continuation :=
  match p with
  | OnError.stopWorkflow => Continuation.runFailed
  | OnError.continueRegularOutput => Continuation.proceedRegular alwaysOut
  | OnError.continueErrorOutput =>
    if errorPortWired then Continuation.proceedErrorPort else Continuation.runFailed

/-- The full observable behaviour of one node in a run: its StepExecution
    rows and the continuation the Coordinator takes afterwards. -/
def nodeBehaviour (s : StepSettings) (errorPortWired : Bool) (out : Nat → StepStatus) :
    List (Nat × StepStatus) × Continuation :=
  let r := execNode s out
  (r.1,
   match r.2 with
   | StepStatus.success => Continuation.succeeded
   | StepStatus.error => applyOnError (effOnError s) s.alwaysOutputData errorPortWired)

/-- The run status once `k` attempts of the node have completed: RUNNING
    while attempts are still pending, and after the final attempt FAILED
    exactly when the node's continuation is runFailed. -/
def statusAfterAttempt (s : StepSettings) (errorPortWired : Bool)
    (out : Nat → StepStatus) (k : Nat) : RunStatus :=
  let r := nodeBehaviour s errorPortWired out
  if k < r.1.length then RunStatus.running
  else
    match r.2 with
    | Continuation.runFailed => RunStatus.failed
    | _ => RunStatus.running

/- ---------------------------------------------------------------------
   The Trigger Dispatcher's dedup cache (spec §4.5 / §6), modelled from
   the spec since the Dispatcher is not under src/.
   --------------------------------------------------------------------- -/

/-- The Dispatcher's state: the next fresh run id, the ids of the Runs
    created so far, and the dedup cache holding (dedup key, run id,
    insertion time) entries, most recent first. -/
structure DispatchState where
  nextRunId : Nat
  runs : List Nat
  cache : List (String × Nat × Nat)
  deriving DecidableEq, Repr

/-- Modelled from the spec: the Dispatcher is not under src/. Spec §4.5: a
    lookup finds the entry for the key and honours the bounded TTL — the
    entry is valid while `now < insertedAt + ttl`. -/
def cacheLookup (ttl now : Nat) (k : String) (c : List (String × Nat × Nat)) : Option Nat :=
  match c.find? (fun e => e.1 = k) with
  | some e => if now < e.2.2 + ttl then some e.2.1 else none
  | none => none

/-- Modelled from the spec: `enqueueRun` (spec §6, §4.5) is not under src/.
    With a dedup key, a check-and-set against the cache: if a run already
    exists for that key within the TTL window its id is returned and no new
    Run is created; otherwise a fresh Run is created and the cache entry for
    the key is (re)set. Without a key a fresh Run is always created. -/
def enqueueRun (ttl now : Nat) (key : Option String) (st : DispatchState) :
    Nat × DispatchState :=
  match key with
  | none =>
    (st.nextRunId,
     { nextRunId := st.nextRunId + 1,
       runs := st.runs ++ [st.nextRunId],
       cache := st.cache })
  | some k =>
    match cacheLookup ttl now k st.cache with
    | some rid => (rid, st)
    | none =>
      (st.nextRunId,
       { nextRunId := st.nextRunId + 1,
         runs := st.runs ++ [st.nextRunId],
         cache := (k, st.nextRunId, now) :: st.cache.filter (fun e => ¬ e.1 = k) })

end WorkflowSpec

namespace WorkflowSpec

/-- Claim C1 counterexample: the bounds are not enforced. Typing `7` in the
    Max Tries field stores `maxTries = 7`, outside 1-5, and typing an empty
    or non-numeric string stores NaN; `updateSetting` passes `parseInt` of
    the raw input through unclamped. -/
theorem maxTries_bounds_violated_at_seven :
    (maxTriesOnChange {} (r"7")).maxTries = some (some 7) ∧
    ¬ jsInRange (some 7) 1 5 ∧
    (maxTriesOnChange {} (r"")).maxTries = some none := by
  decide

/-- Claim C1 (amended): `updateSetting` stores exactly `parseInt` of the
    typed string for both retry fields; in particular, whenever the typed
    string parses to an integer within the advertised bounds (1-5 for
    maxTries, 0-5000 for waitBetweenTries) the stored value is an in-range
    integer, but nothing clamps out-of-range or NaN results. -/
theorem updateSetting_stores_parseInt (st st2 : NodeSettingsUI) (s t : String) (k m : Int)
    (hk : jsParseInt s = some k) (h1 : 1 ≤ k) (h5 : k ≤ 5)
    (hm : jsParseInt t = some m) (h0 : 0 ≤ m) (hM : m ≤ 5000) :
    (maxTriesOnChange st s).maxTries = some (some k) ∧
    jsInRange (some k) 1 5 ∧
    (waitBetweenTriesOnChange st2 t).waitBetweenTries = some (some m) ∧
    jsInRange (some m) 0 5000 := by
  refine ⟨?_, ⟨k, rfl, h1, h5⟩, ?_, ⟨m, rfl, h0, hM⟩⟩
  · simp [maxTriesOnChange, updateMaxTries, hk]
  · simp [waitBetweenTriesOnChange, updateWaitBetweenTries, hm]

/-- Witness for `updateSetting_stores_parseInt` at typed inputs 3 and 1000. -/
theorem updateSetting_stores_parseInt_witness :
    (maxTriesOnChange {} (r"3")).maxTries = some (some 3) ∧
    jsInRange (some 3) 1 5 ∧
    (waitBetweenTriesOnChange {} (r"1000")).waitBetweenTries = some (some 1000) ∧
    jsInRange (some 1000) 0 5000 :=
  updateSetting_stores_parseInt {} {} (r"3") (r"1000") 3 1000
    (by decide) (by decide) (by decide) (by decide) (by decide) (by decide)

/-- Claim C2: the On Error select resolves an unset `onError` to
    stopWorkflow (`settings.onError || 'stopWorkflow'`), and the policy type
    has exactly the three values stopWorkflow, continueRegularOutput and
    continueErrorOutput. -/
theorem onError_defaults_to_stopWorkflow (st : NodeSettingsUI)
    (h : st.onError = none) :
    selectedOnError st = OnError.stopWorkflow ∧
    ∀ o : OnError, o = OnError.stopWorkflow ∨ o = OnError.continueRegularOutput ∨
      o = OnError.continueErrorOutput := by
  constructor
  · simp [selectedOnError, h]
  · intro o; cases o <;> simp

/-- Witness for `onError_defaults_to_stopWorkflow` at the empty settings
    object. -/
theorem onError_defaults_to_stopWorkflow_witness :
    selectedOnError {} = OnError.stopWorkflow ∧
    ∀ o : OnError, o = OnError.stopWorkflow ∨ o = OnError.continueRegularOutput ∨
      o = OnError.continueErrorOutput :=
  onError_defaults_to_stopWorkflow {} rfl

/-- Claim C3: both delete call sites bind `deleteNode` from the store, but
    the object `create` builds the store from defines no `deleteNode` key, so
    the destructured binding is `undefined` and confirming the Delete Node
    action throws instead of removing the node. -/
theorem store_has_no_deleteNode :
    (r"deleteNode") ∈ nodeConfigStoreBindings ∧
    (r"deleteNode") ∈ indexPageStoreBindings ∧
    (r"deleteNode") ∉ workflowStoreKeys := by
  decide

/-- Claim C9: `updateNode` replaces exactly the nodes whose id equals the
    given nodeId, keeps every other node as well as edges, workflowId and
    workflowName, and moves the selection to the replacement exactly when
    the selected node's id equals nodeId (a null selection stays null). -/
theorem updateNode_frame (nodeId : String) (un : RFNode) (st : WorkflowState) :
    (updateNode nodeId un st).edges = st.edges ∧
    (updateNode nodeId un st).workflowId = st.workflowId ∧
    (updateNode nodeId un st).workflowName = st.workflowName ∧
    (updateNode nodeId un st).nodes.length = st.nodes.length ∧
    (∀ (i : Nat) (h1 : i < (updateNode nodeId un st).nodes.length)
        (h2 : i < st.nodes.length),
      (updateNode nodeId un st).nodes.get ⟨i, h1⟩ =
        if (st.nodes.get ⟨i, h2⟩).id = nodeId then un else st.nodes.get ⟨i, h2⟩) ∧
    (st.selectedNode = none → (updateNode nodeId un st).selectedNode = none) ∧
    (∀ sel, st.selectedNode = some sel →
      (updateNode nodeId un st).selectedNode =
        if sel.id = nodeId then some un else some sel) := by
  refine ⟨rfl, rfl, rfl, by simp [updateNode], ?_, ?_, ?_⟩
  · intro i h1 h2
    simp [updateNode]
  · intro h
    simp [updateNode, h]
  · intro sel h
    simp [updateNode, h]

/-- Witness for `updateNode_frame` on a two-node state with node `a`
    selected and replaced. -/
theorem updateNode_frame_witness :
    (updateNode (r"a") ⟨r"a", r"action", r"A2", 1, 1⟩
        ⟨r"w", r"W", [⟨r"a", r"action", r"A", 0, 0⟩, ⟨r"b", r"trigger", r"B", 0, 0⟩],
          [], some ⟨r"a", r"action", r"A", 0, 0⟩⟩).edges = [] ∧
    (updateNode (r"a") ⟨r"a", r"action", r"A2", 1, 1⟩
        ⟨r"w", r"W", [⟨r"a", r"action", r"A", 0, 0⟩, ⟨r"b", r"trigger", r"B", 0, 0⟩],
          [], some ⟨r"a", r"action", r"A", 0, 0⟩⟩).workflowId = r"w" ∧
    (updateNode (r"a") ⟨r"a", r"action", r"A2", 1, 1⟩
        ⟨r"w", r"W", [⟨r"a", r"action", r"A", 0, 0⟩, ⟨r"b", r"trigger", r"B", 0, 0⟩],
          [], some ⟨r"a", r"action", r"A", 0, 0⟩⟩).workflowName = r"W" ∧
    (updateNode (r"a") ⟨r"a", r"action", r"A2", 1, 1⟩
        ⟨r"w", r"W", [⟨r"a", r"action", r"A", 0, 0⟩, ⟨r"b", r"trigger", r"B", 0, 0⟩],
          [], some ⟨r"a", r"action", r"A", 0, 0⟩⟩).nodes.length =
      ([⟨r"a", r"action", r"A", 0, 0⟩, ⟨r"b", r"trigger", r"B", 0, 0⟩] : List RFNode).length ∧
    (∀ (i : Nat)
        (h1 : i < (updateNode (r"a") ⟨r"a", r"action", r"A2", 1, 1⟩
          ⟨r"w", r"W", [⟨r"a", r"action", r"A", 0, 0⟩, ⟨r"b", r"trigger", r"B", 0, 0⟩],
            [], some ⟨r"a", r"action", r"A", 0, 0⟩⟩).nodes.length)
        (h2 : i < ([⟨r"a", r"action", r"A", 0, 0⟩, ⟨r"b", r"trigger", r"B", 0, 0⟩] : List RFNode).length),
      (updateNode (r"a") ⟨r"a", r"action", r"A2", 1, 1⟩
          ⟨r"w", r"W", [⟨r"a", r"action", r"A", 0, 0⟩, ⟨r"b", r"trigger", r"B", 0, 0⟩],
            [], some ⟨r"a", r"action", r"A", 0, 0⟩⟩).nodes.get ⟨i, h1⟩ =
        if (([⟨r"a", r"action", r"A", 0, 0⟩, ⟨r"b", r"trigger", r"B", 0, 0⟩] : List RFNode).get ⟨i, h2⟩).id = r"a"
          then ⟨r"a", r"action", r"A2", 1, 1⟩
          else ([⟨r"a", r"action", r"A", 0, 0⟩, ⟨r"b", r"trigger", r"B", 0, 0⟩] : List RFNode).get ⟨i, h2⟩) ∧
    ((some ⟨r"a", r"action", r"A", 0, 0⟩ : Option RFNode) = none →
      (updateNode (r"a") ⟨r"a", r"action", r"A2", 1, 1⟩
          ⟨r"w", r"W", [⟨r"a", r"action", r"A", 0, 0⟩, ⟨r"b", r"trigger", r"B", 0, 0⟩],
            [], some ⟨r"a", r"action", r"A", 0, 0⟩⟩).selectedNode = none) ∧
    (∀ sel, (some ⟨r"a", r"action", r"A", 0, 0⟩ : Option RFNode) = some sel →
      (updateNode (r"a") ⟨r"a", r"action", r"A2", 1, 1⟩
          ⟨r"w", r"W", [⟨r"a", r"action", r"A", 0, 0⟩, ⟨r"b", r"trigger", r"B", 0, 0⟩],
            [], some ⟨r"a", r"action", r"A", 0, 0⟩⟩).selectedNode =
        if sel.id = r"a" then some ⟨r"a", r"action", r"A2", 1, 1⟩ else some sel) :=
  updateNode_frame (r"a") ⟨r"a", r"action", r"A2", 1, 1⟩
    ⟨r"w", r"W", [⟨r"a", r"action", r"A", 0, 0⟩, ⟨r"b", r"trigger", r"B", 0, 0⟩],
      [], some ⟨r"a", r"action", r"A", 0, 0⟩⟩


/-- Claim C10: `loadWorkflow` overwrites workflowId, workflowName, nodes and
    edges from its argument and leaves the selection untouched; consequently
    a selected node can dangle, referencing an id absent from the freshly
    loaded nodes list (witnessed by the final conjunct). -/
theorem loadWorkflow_frame (w : WorkflowPayload) (st : WorkflowState) :
    (loadWorkflow w st).workflowId = w.id ∧
    (loadWorkflow w st).workflowName = w.name ∧
    (loadWorkflow w st).nodes = w.nodes ∧
    (loadWorkflow w st).edges = w.edges ∧
    (loadWorkflow w st).selectedNode = st.selectedNode ∧
    (∃ (st0 : WorkflowState) (w0 : WorkflowPayload) (sel : RFNode),
      (loadWorkflow w0 st0).selectedNode = some sel ∧
      sel.id ∉ (loadWorkflow w0 st0).nodes.map RFNode.id) := by
  refine ⟨rfl, rfl, rfl, rfl, rfl, ?_⟩
  exact ⟨⟨r"w", r"W", [], [], some ⟨r"a", r"action", r"A", 0, 0⟩⟩,
    ⟨r"v", r"V", [⟨r"b", r"trigger", r"B", 0, 0⟩], []⟩,
    ⟨r"a", r"action", r"A", 0, 0⟩, rfl, by decide⟩

/-- Claim C4: under the engine's policy, a node configured with
    `continueOnFail = true` (and `onError` unset) behaves identically — same
    StepExecution rows, same continuation — to one configured with
    `onError = continueRegularOutput`, for every base configuration, error
    port wiring and sequence of attempt outcomes: the two fields are an
    alias pair. -/
theorem continueOnFail_alias (base : StepSettings) (errorPortWired : Bool)
    (out : Nat → StepStatus) :
    nodeBehaviour { base with continueOnFail := true, onError := none } errorPortWired out
      = nodeBehaviour
          { base with continueOnFail := false, onError := some OnError.continueRegularOutput }
          errorPortWired out := by
  rfl

/-- Claim C5: the condition node declares exactly one input port and exactly
    two output ports named `true` and `false`, and every condition
    evaluation activates exactly one declared output port — never both,
    never neither — and the two possible emissions are distinct ports. -/
theorem condition_node_single_emission (condition : Bool) :
    (conditionNodeHandles.filter (fun h => h.ty = HandleType.target)).length = 1 ∧
    conditionOutputPorts = [r"true", r"false"] ∧
    activatedPorts condition = [condEmit condition] ∧
    (activatedPorts condition).length = 1 ∧
    condEmit condition ∈ conditionOutputPorts ∧
    condEmit true ≠ condEmit false := by
  cases condition <;> decide

/-- Claim C6: the run status only moves along the spec's state machine:
    from QUEUED only to RUNNING (via start) or CANCELLED; from RUNNING only
    to SUCCEEDED, FAILED, WAITING or CANCELLED; from WAITING only to RUNNING
    (and only via the explicit resume action), to FAILED (only on rejection
    or approval timeout) or to CANCELLED; SUCCEEDED, FAILED and CANCELLED
    have no outgoing transition; and the listed transitions all exist. -/
theorem run_state_machine (a : RunAct) (s : RunStatus) :
    (runStep RunStatus.queued a = some s →
      s = RunStatus.running ∨ s = RunStatus.cancelled) ∧
    (runStep RunStatus.queued a = some RunStatus.running → a = RunAct.start) ∧
    (runStep RunStatus.running a = some s →
      s = RunStatus.succeeded ∨ s = RunStatus.failed ∨ s = RunStatus.waiting ∨
        s = RunStatus.cancelled) ∧
    (runStep RunStatus.waiting a = some s →
      (s = RunStatus.running ∧ a = RunAct.resume) ∨
      (s = RunStatus.failed ∧ (a = RunAct.reject ∨ a = RunAct.approvalTimeout)) ∨
      (s = RunStatus.cancelled ∧ a = RunAct.cancel)) ∧
    runStep RunStatus.succeeded a = none ∧
    runStep RunStatus.failed a = none ∧
    runStep RunStatus.cancelled a = none ∧
    runStep RunStatus.queued RunAct.start = some RunStatus.running ∧
    runStep RunStatus.running RunAct.finishOk = some RunStatus.succeeded ∧
    runStep RunStatus.running RunAct.finishFail = some RunStatus.failed ∧
    runStep RunStatus.running RunAct.suspend = some RunStatus.waiting ∧
    runStep RunStatus.waiting RunAct.resume = some RunStatus.running ∧
    runStep RunStatus.waiting RunAct.reject = some RunStatus.failed ∧
    runStep RunStatus.waiting RunAct.approvalTimeout = some RunStatus.failed ∧
    runStep RunStatus.queued RunAct.cancel = some RunStatus.cancelled ∧
    runStep RunStatus.running RunAct.cancel = some RunStatus.cancelled ∧
    runStep RunStatus.waiting RunAct.cancel = some RunStatus.cancelled := by
  cases a <;> cases s <;> decide

/-- Witness for `run_state_machine` at the start action from QUEUED. -/
theorem run_state_machine_witness :
    RunStatus.running = RunStatus.running ∨ RunStatus.running = RunStatus.cancelled :=
  (run_state_machine RunAct.start RunStatus.running).1 rfl

/-- Claim C7: a node with `retryOnFail = true` and `maxTries = 3` whose
    every attempt errors records exactly 3 StepExecution rows (`maxTries` is
    the total attempt budget including the first try); the run is never
    FAILED before the third attempt completes, and under the default
    stopWorkflow policy it is FAILED right after the third. -/
theorem three_tries_three_rows (s : StepSettings) (wired : Bool)
    (out : Nat → StepStatus)
    (hr : s.retryOnFail = true) (hm : s.maxTries = 3)
    (herr : ∀ i, out i = StepStatus.error) :
    (nodeBehaviour s wired out).1.length = 3 ∧
    (∀ k, k < 3 → statusAfterAttempt s wired out k = RunStatus.running) ∧
    (effOnError s = OnError.stopWorkflow →
      statusAfterAttempt s wired out 3 = RunStatus.failed) := by
  have hx : execNode s out =
      ([(1, StepStatus.error), (2, StepStatus.error), (3, StepStatus.error)],
        StepStatus.error) := by
    simp only [execNode, hm, hr]
    rw [runRetries, herr 1, runRetries, herr (1 + 1), runRetries, herr (1 + 1 + 1)]
    decide
  have hb : nodeBehaviour s wired out =
      ([(1, StepStatus.error), (2, StepStatus.error), (3, StepStatus.error)],
        applyOnError (effOnError s) s.alwaysOutputData wired) := by
    simp [nodeBehaviour, hx]
  refine ⟨by simp [hb], ?_, ?_⟩
  · intro k hk
    simp [statusAfterAttempt, hb, hk]
  · intro hp
    simp [statusAfterAttempt, hb, hp, applyOnError]

/-- Witness for `three_tries_three_rows`: default settings with retries
    enabled and an executor that always errors. -/
theorem three_tries_three_rows_witness :
    (nodeBehaviour { retryOnFail := true } false
        (fun _ => StepStatus.error)).1.length = 3 ∧
    (∀ k, k < 3 → statusAfterAttempt { retryOnFail := true } false
        (fun _ => StepStatus.error) k = RunStatus.running) ∧
    (effOnError { retryOnFail := true } = OnError.stopWorkflow →
      statusAfterAttempt { retryOnFail := true } false
        (fun _ => StepStatus.error) 3 = RunStatus.failed) :=
  three_tries_three_rows { retryOnFail := true } false (fun _ => StepStatus.error)
    rfl rfl (fun _ => rfl)

/-- On a cache miss `enqueueRun` creates a fresh Run and sets the key's
    cache entry. -/
theorem enqueueRun_fresh (ttl now : Nat) (k : String) (st : DispatchState)
    (h : cacheLookup ttl now k st.cache = none) :
    enqueueRun ttl now (some k) st =
      (st.nextRunId,
       ⟨st.nextRunId + 1, st.runs ++ [st.nextRunId],
        (k, st.nextRunId, now) :: st.cache.filter (fun e => ¬ e.1 = k)⟩) := by
  simp [enqueueRun, h]

/-- On a cache hit `enqueueRun` returns the cached run id and changes
    nothing. -/
theorem enqueueRun_hit (ttl now : Nat) (k : String) (st : DispatchState) (rid : Nat)
    (h : cacheLookup ttl now k st.cache = some rid) :
    enqueueRun ttl now (some k) st = (rid, st) := by
  simp [enqueueRun, h]

/-- Claim C8: two trigger events sharing a dedup key within the TTL window
    get the same run id and no second Run is created (the dispatch state is
    untouched); an event for the same key arriving at or after TTL expiry
    creates a new Run with a fresh id. -/
theorem trigger_dedup (ttl t0 t1 t2 : Nat) (k : String) (st0 : DispatchState)
    (h0 : st0.cache.find? (fun e => e.1 = k) = none)
    (hw : t1 < t0 + ttl) (he : t0 + ttl ≤ t2) :
    (enqueueRun ttl t0 (some k) st0).1 = st0.nextRunId ∧
    (enqueueRun ttl t0 (some k) st0).2.runs = st0.runs ++ [st0.nextRunId] ∧
    (enqueueRun ttl t1 (some k) (enqueueRun ttl t0 (some k) st0).2).1
      = (enqueueRun ttl t0 (some k) st0).1 ∧
    (enqueueRun ttl t1 (some k) (enqueueRun ttl t0 (some k) st0).2).2
      = (enqueueRun ttl t0 (some k) st0).2 ∧
    (enqueueRun ttl t2 (some k) (enqueueRun ttl t0 (some k) st0).2).1
      ≠ (enqueueRun ttl t0 (some k) st0).1 ∧
    (enqueueRun ttl t2 (some k) (enqueueRun ttl t0 (some k) st0).2).2.runs
      = (enqueueRun ttl t0 (some k) st0).2.runs
          ++ [(enqueueRun ttl t2 (some k) (enqueueRun ttl t0 (some k) st0).2).1] := by
  have hfirst := enqueueRun_fresh ttl t0 k st0 (by simp [cacheLookup, h0])
  have hlook1 : cacheLookup ttl t1 k
      ((k, st0.nextRunId, t0) :: st0.cache.filter (fun e => ¬ e.1 = k))
        = some st0.nextRunId := by
    simp [cacheLookup, List.find?, hw]
  have hlook2 : cacheLookup ttl t2 k
      ((k, st0.nextRunId, t0) :: st0.cache.filter (fun e => ¬ e.1 = k)) = none := by
    simp [cacheLookup, List.find?]
    omega
  have hsecond := enqueueRun_hit ttl t1 k
    ⟨st0.nextRunId + 1, st0.runs ++ [st0.nextRunId],
      (k, st0.nextRunId, t0) :: st0.cache.filter (fun e => ¬ e.1 = k)⟩
    st0.nextRunId hlook1
  have hthird := enqueueRun_fresh ttl t2 k
    ⟨st0.nextRunId + 1, st0.runs ++ [st0.nextRunId],
      (k, st0.nextRunId, t0) :: st0.cache.filter (fun e => ¬ e.1 = k)⟩ hlook2
  simp only [decide_not] at hfirst hsecond hthird
  refine ⟨by simp [hfirst], by simp [hfirst], ?_, ?_, ?_, ?_⟩
  · simp [hfirst, hsecond]
  · simp [hfirst, hsecond]
  · simp [hfirst, hthird]
  · simp [hfirst, hthird]

/-- Witness for `trigger_dedup` with TTL 60: events at times 0 and 30 share
    the run, an event at time 60 gets a fresh run. -/
theorem trigger_dedup_witness :
    (enqueueRun 60 0 (some (r"k1")) ⟨0, [], []⟩).1 = 0 ∧
    (enqueueRun 60 0 (some (r"k1")) ⟨0, [], []⟩).2.runs = [] ++ [0] ∧
    (enqueueRun 60 30 (some (r"k1")) (enqueueRun 60 0 (some (r"k1")) ⟨0, [], []⟩).2).1
      = (enqueueRun 60 0 (some (r"k1")) ⟨0, [], []⟩).1 ∧
    (enqueueRun 60 30 (some (r"k1")) (enqueueRun 60 0 (some (r"k1")) ⟨0, [], []⟩).2).2
      = (enqueueRun 60 0 (some (r"k1")) ⟨0, [], []⟩).2 ∧
    (enqueueRun 60 60 (some (r"k1")) (enqueueRun 60 0 (some (r"k1")) ⟨0, [], []⟩).2).1
      ≠ (enqueueRun 60 0 (some (r"k1")) ⟨0, [], []⟩).1 ∧
    (enqueueRun 60 60 (some (r"k1")) (enqueueRun 60 0 (some (r"k1")) ⟨0, [], []⟩).2).2.runs
      = (enqueueRun 60 0 (some (r"k1")) ⟨0, [], []⟩).2.runs
          ++ [(enqueueRun 60 60 (some (r"k1")) (enqueueRun 60 0 (some (r"k1")) ⟨0, [], []⟩).2).1] :=
  trigger_dedup 60 0 30 60 (r"k1") ⟨0, [], []⟩ rfl (by decide) (by decide)


end WorkflowSpec
